import Mathlib

/-
Verification of the fund-performance application.

Frontend components (compare page, fund detail page, chat page, Pagination,
MessageBubble, TransactionsTable) are shallowly embedded from the TypeScript
sources. JavaScript numbers are modelled as rationals; JavaScript nullable or
optional values are modelled with Option. External library formatting helpers
(formatCurrency, formatPercentage, Number.toFixed) live outside the repository
sources, so they are taken as function parameters.

The backend metrics engine, IRR root-finder and table classifier are not part
of the available sources; they are modelled from the specification, and each
such definition says so in its doc comment.
-/

namespace FundApp

/-- Values of the loosely typed JavaScript metric objects that reach the chat
message bubble: null, undefined, a number, or a string. -/
inductive JsVal
  | jsNull
  | jsUndef
  | jsNum (q : ℚ)
  | jsStr (s : String)
  deriving Repr, DecidableEq

/-- Test whether the first character list starts the second one. -/
def leadsWith : List Char → List Char → Bool
  | [], _ => true
  | _ :: _, [] => false
  | c :: cs, d :: ds => (c == d) && leadsWith cs ds

/-- Test whether the first character list occurs contiguously inside the
second one. -/
def occursIn (sub : List Char) : List Char → Bool
  | [] => sub.isEmpty
  | d :: ds => leadsWith sub (d :: ds) || occursIn sub ds

/-- Embedding of the JavaScript substring test used by key.includes in the
chat metrics panel. -/
def stringIncludes (s sub : String) : Bool :=
  occursIn sub.toList s.toList

/- ----------------------------------------------------------------
   Compare page (src/frontend/app/compare/page.tsx)
   ---------------------------------------------------------------- -/

/-- Format selector of formatMetric on the compare page. -/
inductive MetricFormat
  | currency
  | percentage
  | number
  deriving Repr, DecidableEq

/-- Embedding of formatMetric from the compare page: a null or undefined value
renders the string N/A; otherwise the value is routed by the format selector.
formatCurrency and the two-decimal toFixed rendering are external helpers and
are passed in as functions. -/
def formatMetric (formatCurrency toFixed2 : ℚ → String)
    (value : Option ℚ) (fmt : MetricFormat) : String :=
  match value with
  | none => "N/A"
  | some v =>
    match fmt with
    | .currency => formatCurrency v
    | .percentage => toFixed2 (v * 100) ++ "%"
    | .number => toFixed2 v

/-- Embedding of toggleFund on the compare page: a selected id is removed by
filtering, a new id is appended only while fewer than 10 funds are selected. -/
def toggleFund (prev : List ℤ) (fundId : ℤ) : List ℤ :=
  if fundId ∈ prev then
    prev.filter (fun id => id ≠ fundId)
  else if prev.length < 10 then
    prev ++ [fundId]
  else
    prev

/-- Embedding of the enabled condition of the comparison query on the compare
page: the query runs only when at least two funds are selected. -/
def compareQueryEnabled (selectedFundIds : List ℤ) : Bool :=
  decide (2 ≤ selectedFundIds.length)

/- ----------------------------------------------------------------
   Fund detail page (src/frontend/app/funds/[id]/page.tsx)
   ---------------------------------------------------------------- -/

/-- Embedding of the DPI metric card value on the fund detail page. The source
expression is optional chaining on dpi, string concatenation with the letter x,
then a logical-or fallback to N/A. Under JavaScript semantics the optional
chain yields undefined for a null metric, string concatenation coerces that to
the text undefined, and the resulting non-empty string is truthy, so the
fallback fires only when the concatenation is the empty string. -/
def dpiCardValue (toFixed2 : ℚ → String) (dpi : Option ℚ) : String :=
  let s :=
    (match dpi with
      | none => "undefined"
      | some v => toFixed2 v) ++ "x"
  if s = "" then "N/A" else s

/-- Embedding of the IRR metric card value on the fund detail page: a ternary
on the truthiness of the irr number (null, undefined and zero are falsy). -/
def irrCardValue (formatPercentage : ℚ → String) (irr : Option ℚ) : String :=
  match irr with
  | none => "N/A"
  | some v => if v = 0 then "N/A" else formatPercentage v

/-- Embedding of the Paid-In Capital metric card value on the fund detail
page: a ternary on the truthiness of the pic number. -/
def picCardValue (formatCurrency : ℚ → String) (pic : Option ℚ) : String :=
  match pic with
  | none => "N/A"
  | some v => if v = 0 then "N/A" else formatCurrency v

/-- Embedding of the Distributions metric card value on the fund detail page:
a ternary on the truthiness of the total distributions number. -/
def distributionsCardValue (formatCurrency : ℚ → String)
    (totalDistributions : Option ℚ) : String :=
  match totalDistributions with
  | none => "N/A"
  | some v => if v = 0 then "N/A" else formatCurrency v

/- ----------------------------------------------------------------
   Chat page and MessageBubble (chat page source file)
   ---------------------------------------------------------------- -/

/-- Role of a chat message. -/
inductive ChatRole
  | user
  | assistant
  deriving Repr, DecidableEq

/-- Metric object attached to a response or message: ordered key-value entries
of a loosely typed JavaScript object, as traversed by Object.entries. -/
def MetricEntries := List (String × JsVal)

/-- Response payload of the chat query endpoint as consumed by handleSubmit. -/
structure QueryResponse where
  answer : String
  sources : List String
  metrics : Option (List (String × JsVal))
  no_documents_found : Bool

/-- Chat message state of the chat page. The noDocumentsFound field is
optional in the source interface, hence Option Bool here. -/
structure ChatMessage where
  role : ChatRole
  content : String
  sources : Option (List String)
  metrics : Option (List (String × JsVal))
  noDocumentsFound : Option Bool

/-- Embedding of the assistant-message construction inside handleSubmit on the
chat page: every response field is copied onto the new message, including the
no_documents_found flag. -/
def assistantMessageOfResponse (r : QueryResponse) : ChatMessage :=
  { role := ChatRole.assistant
    content := r.answer
    sources := some r.sources
    metrics := r.metrics
    noDocumentsFound := some r.no_documents_found }

/-- JavaScript truthiness of an optional boolean: undefined is falsy. -/
def jsTruthyOptBool : Option Bool → Bool
  | none => false
  | some b => b

/-- Embedding of the warning banner condition in MessageBubble: the banner is
shown exactly when the message is not a user message and its noDocumentsFound
field is truthy. -/
def showsNoDocsBanner (m : ChatMessage) : Bool :=
  (!(m.role == ChatRole.user)) && jsTruthyOptBool m.noDocumentsFound

/-- Embedding of one entry of the calculated-metrics panel in MessageBubble:
null and undefined values render no row; a numeric value whose key contains
the letters irr renders as two decimals followed by a percent sign; any other
numeric value renders through formatCurrency; a string renders as itself. -/
def renderMetricRow (formatCurrency toFixed2 : ℚ → String)
    (key : String) (value : JsVal) : Option (String × String) :=
  match value with
  | .jsNull => none
  | .jsUndef => none
  | .jsNum q =>
    some (key, if stringIncludes key "irr" then toFixed2 q ++ "%" else formatCurrency q)
  | .jsStr s => some (key, s)

/-- Embedding of the calculated-metrics panel in MessageBubble: the entries of
the metrics object are mapped through the row renderer and null rows are
dropped. -/
def renderMetricsPanel (formatCurrency toFixed2 : ℚ → String)
    (metrics : List (String × JsVal)) : List (String × String) :=
  metrics.filterMap (fun e => renderMetricRow formatCurrency toFixed2 e.1 e.2)

/- ----------------------------------------------------------------
   Pagination component (Pagination source file)
   ---------------------------------------------------------------- -/

/-- List of consecutive integers from s to e inclusive, the shallow embedding
of the for-loop that pushes page numbers from startPage to endPage. -/
def intRange (s e : ℤ) : List ℤ :=
  (List.range (e - s + 1).toNat).map (fun (i : ℕ) => s + (i : ℤ))

/-- Embedding of the maxVisiblePages constant of getPageNumbers. -/
def maxVisiblePages : ℤ := 5

/-- Embedding of the initial startPage assignment in getPageNumbers. -/
def pageStartInitial (currentPage : ℤ) : ℤ :=
  max 1 (currentPage - maxVisiblePages / 2)

/-- Embedding of the endPage assignment in getPageNumbers, computed from the
initial startPage. -/
def pageEnd (currentPage totalPages : ℤ) : ℤ :=
  min totalPages (pageStartInitial currentPage + maxVisiblePages - 1)

/-- Embedding of the conditional reassignment of startPage in getPageNumbers:
when the window is short of maxVisiblePages pages, startPage is pulled back. -/
def pageStart (currentPage totalPages : ℤ) : ℤ :=
  if pageEnd currentPage totalPages - pageStartInitial currentPage + 1 < maxVisiblePages then
    max 1 (pageEnd currentPage totalPages - maxVisiblePages + 1)
  else
    pageStartInitial currentPage

/-- Embedding of getPageNumbers of the Pagination component. -/
def getPageNumbers (currentPage totalPages : ℤ) : List ℤ :=
  intRange (pageStart currentPage totalPages) (pageEnd currentPage totalPages)

/-- Embedding of handlePageChange of the Pagination component: the page-change
callback is invoked with the page exactly when the page lies between 1 and
totalPages; the invocation is modelled as returning some page. -/
def handlePageChange (totalPages page : ℤ) : Option ℤ :=
  if 1 ≤ page ∧ page ≤ totalPages then some page else none

/- ----------------------------------------------------------------
   Metrics engine, modelled from the specification
   ---------------------------------------------------------------- -/

/-- Modelled from the spec: typed transaction records of the Transaction
Store (capital calls, distributions with a recallable flag, signed
adjustments); the backend store is not among the available sources. -/
inductive Transaction
  | capitalCall (amount : ℚ)
  | distribution (amount : ℚ) (recallable : Bool)
  | adjustment (amount : ℚ)
  deriving Repr, DecidableEq

/-- Modelled from the spec: total of capital call amounts. -/
def capitalCallTotal (txs : List Transaction) : ℚ :=
  (txs.map fun t =>
    match t with
    | .capitalCall a => a
    | _ => 0).sum

/-- Modelled from the spec: total of adjustment amounts, which shift Paid-In
Capital without being calls. -/
def adjustmentTotal (txs : List Transaction) : ℚ :=
  (txs.map fun t =>
    match t with
    | .adjustment a => a
    | _ => 0).sum

/-- Modelled from the spec: Paid-In Capital is the sum of capital call
amounts plus the sum of adjustment amounts. -/
def paidInCapital (txs : List Transaction) : ℚ :=
  capitalCallTotal txs + adjustmentTotal txs

/-- Modelled from the spec: distributed capital is the sum of distribution
amounts. -/
def distributedCapital (txs : List Transaction) : ℚ :=
  (txs.map fun t =>
    match t with
    | .distribution a _ => a
    | _ => 0).sum

/-- Metrics snapshot returned by the metrics read API; every ratio field is
independently nullable. -/
structure MetricsSnapshot where
  pic : ℚ
  distributed_capital : ℚ
  nav : ℚ
  dpi : Option ℚ
  rvpi : Option ℚ
  tvpi : Option ℚ
  moic : Option ℚ
  deriving Repr, DecidableEq

/-- Modelled from the spec: the metrics engine get_metrics, whose backend
implementation is not among the available sources. NAV is externally supplied
and defaults to 0 when no source exists. DPI, TVPI and MOIC are null when PIC
is 0; RVPI is 0 when NAV is 0 (deliberate policy), null when PIC is 0 with a
nonzero NAV, and NAV over PIC otherwise. -/
def get_metrics (txs : List Transaction) (navSource : Option ℚ) : MetricsSnapshot :=
  let pic := paidInCapital txs
  let dist := distributedCapital txs
  let nav := navSource.getD 0
  { pic := pic
    distributed_capital := dist
    nav := nav
    dpi := if pic = 0 then none else some (dist / pic)
    rvpi := if nav = 0 then some 0 else if pic = 0 then none else some (nav / pic)
    tvpi := if pic = 0 then none else some ((dist + nav) / pic)
    moic := if pic = 0 then none else some ((dist + nav) / pic) }

/-- Transaction set of the Velocity Ventures scenario: capital calls totaling
one hundred million and distributions totaling forty million. -/
def velocityTransactions : List Transaction :=
  [Transaction.capitalCall 60000000,
   Transaction.capitalCall 40000000,
   Transaction.distribution 25000000 false,
   Transaction.distribution 15000000 true]

/- ----------------------------------------------------------------
   IRR root-finder, modelled from the specification
   ---------------------------------------------------------------- -/

/-- Modelled from the spec: one signed cash flow of the IRR series, an amount
together with its day offset used by the day-count discount exponent. -/
structure CashFlow where
  amount : ℚ
  days : ℕ
  deriving Repr, DecidableEq

/-- Modelled from the spec: the guard of the IRR routine, requiring at least
one negative and at least one positive cash flow. -/
def hasMixedSigns (flows : List CashFlow) : Bool :=
  (flows.any fun cf => cf.amount < 0) && (flows.any fun cf => cf.amount > 0)

/-- Modelled from the spec: the bounded Newton iteration of the IRR routine.
The fuel argument is the fixed iteration cap; exhausted fuel means
non-convergence and yields none, as does a vanishing derivative, which leaves
no Newton step. A value is returned only when the objective is within the
tolerance. -/
def newtonSolve (f fderiv : ℚ → ℚ) (tol : ℚ) : ℕ → ℚ → Option ℚ
  | 0, _ => none
  | fuel + 1, r =>
    if |f r| < tol then some r
    else if fderiv r = 0 then none
    else newtonSolve f fderiv tol fuel (r - f r / fderiv r)

/-- Modelled from the spec: the IRR routine, whose backend implementation is
not among the available sources. The NPV objective and its derivative are
parameters because the day-count discount uses a real-valued exponent; the
routine guards on sign-mixed cash flows, then runs the Newton iteration with
a cap of 100 iterations, a tolerance of one millionth on NPV, and an initial
guess of one tenth. The routine is a total function into Option: it never
raises, it only returns none. -/
def calculateIrr (npv npvDeriv : List CashFlow → ℚ → ℚ)
    (flows : List CashFlow) : Option ℚ :=
  if hasMixedSigns flows then
    newtonSolve (npv flows) (npvDeriv flows) (1 / 1000000) 100 (1 / 10)
  else
    none

/- ----------------------------------------------------------------
   Table classifier, modelled from the specification
   ---------------------------------------------------------------- -/

/-- Calendar date produced by the classifier date parsing. -/
structure ParsedDate where
  year : ℕ
  month : ℕ
  day : ℕ
  deriving Repr, DecidableEq

/-- Split a character list at every occurrence of the separator; the result
always has one more group than there are separators. -/
def splitOnChar (sep : Char) : List Char → List (List Char)
  | [] => [[]]
  | c :: cs =>
    let rest := splitOnChar sep cs
    if c == sep then
      [] :: rest
    else
      match rest with
      | [] => [[c]]
      | g :: gs => (c :: g) :: gs

/-- Read a non-empty all-digit character list as a natural number; any other
character list yields none. -/
def digitsToNat (l : List Char) : Option ℕ :=
  if l.isEmpty then none
  else if l.all Char.isDigit then
    some (l.foldl (fun n c => 10 * n + (c.toNat - 48)) 0)
  else none

/-- Validity check shared by both accepted date formats: month between 1 and
12, day between 1 and 31. -/
def dateFromFields (yv mv dv : ℕ) : Option ParsedDate :=
  if 1 ≤ mv ∧ mv ≤ 12 ∧ 1 ≤ dv ∧ dv ≤ 31 then some ⟨yv, mv, dv⟩ else none

/-- Modelled from the spec: date parsing of the table classifier, accepting
the slash form month/day/year and the dash form year-month-day; any other
format fails the row. -/
def parseDate (s : String) : Option ParsedDate :=
  match splitOnChar '/' s.toList with
  | [m, d, y] =>
    (match digitsToNat m, digitsToNat d, digitsToNat y with
      | some mv, some dv, some yv => dateFromFields yv mv dv
      | _, _, _ => none)
  | _ =>
    match splitOnChar '-' s.toList with
    | [y, m, d] =>
      (match digitsToNat y, digitsToNat m, digitsToNat d with
        | some yv, some mv, some dv => dateFromFields yv mv dv
        | _, _, _ => none)
    | _ => none

/-- Characters removed by amount normalization: currency symbols, thousands
separators and spaces. -/
def stripAmountChars (s : String) : List Char :=
  s.toList.filter fun c => c ≠ '$' && c ≠ ',' && c ≠ ' '

/-- Modelled from the spec: amount parsing of the table classifier, stripping
currency symbols and thousands separators; a non-numeric amount fails the
row. An optional decimal point with a fractional part is accepted. -/
def parseAmount (s : String) : Option ℚ :=
  match splitOnChar '.' (stripAmountChars s) with
  | [whole] =>
    match digitsToNat whole with
    | some n => some (n : ℚ)
    | none => none
  | [whole, frac] =>
    match digitsToNat whole, digitsToNat frac with
    | some w, some f => some ((w : ℚ) + (f : ℚ) / (10 : ℚ) ^ frac.length)
    | _, _ => none
  | _ => none

/-- Transaction-type label assigned to a raw table. -/
inductive TableLabel
  | capital_call
  | distribution
  | adjustment
  | unclassified
  deriving Repr, DecidableEq

/-- Lowercase every character of a character list. -/
def lowerChars (l : List Char) : List Char :=
  l.map Char.toLower

/-- Modelled from the spec: header-token matching, true when some lowercased
header cell contains some keyword of the lexicon. -/
def headerMatches (header : List String) (keywords : List String) : Bool :=
  header.any fun h => keywords.any fun kw => occursIn kw.toList (lowerChars h.toList)

/-- Modelled from the spec: the prioritized header lexicon rule chain of the
table classifier, checking capital call keywords, then distribution keywords
including the recallable marker, then adjustment keywords. -/
def classifyHeader (header : List String) : TableLabel :=
  if headerMatches header ["capital call", "call date", "call type"] then
    TableLabel.capital_call
  else if headerMatches header ["distribution", "recallable"] then
    TableLabel.distribution
  else if headerMatches header ["adjustment"] then
    TableLabel.adjustment
  else
    TableLabel.unclassified

/-- Raw extracted table: a header row and data rows of cells. -/
structure RawTable where
  header : List String
  rows : List (List String)

/-- Normalized transaction record produced from one valid row. -/
structure NormalizedRecord where
  date : ParsedDate
  amount : ℚ
  deriving Repr, DecidableEq

/-- Modelled from the spec: normalization of one data row, taking the date
from the first cell and the amount from the second; a row whose date or
amount fails to parse is skipped, not the whole table. -/
def parseRow (row : List String) : Option NormalizedRecord :=
  match row with
  | dateCell :: amountCell :: _ =>
    match parseDate dateCell, parseAmount amountCell with
    | some d, some a => some ⟨d, a⟩
    | _, _ => none
  | _ => none

/-- Modelled from the spec: the table classifier, whose backend implementation
is not among the available sources. Rows failing to parse are skipped; the
table keeps its header label provided at least one valid row remains,
otherwise it is unclassified. -/
def classifyTable (t : RawTable) : TableLabel × List NormalizedRecord :=
  let records := t.rows.filterMap parseRow
  if records.isEmpty then
    (TableLabel.unclassified, records)
  else
    (classifyHeader t.header, records)

/- ----------------------------------------------------------------
   Helper lemmas
   ---------------------------------------------------------------- -/

theorem intRange_length (s e : ℤ) (h : s ≤ e + 1) :
    ((intRange s e).length : ℤ) = e - s + 1 := by
  simp only [intRange, List.length_map, List.length_range]
  omega

theorem mem_intRange {x s e : ℤ} : x ∈ intRange s e ↔ s ≤ x ∧ x ≤ e := by
  simp only [intRange, List.mem_map, List.mem_range]
  constructor
  · rintro ⟨i, hi, rfl⟩
    omega
  · intro hx
    exact ⟨(x - s).toNat, by omega, by omega⟩

theorem intRange_chain (s e : ℤ) :
    List.Chain' (fun a b => b = a + 1) (intRange s e) := by
  unfold intRange
  rw [List.chain'_map]
  rcases hn : (e - s + 1).toNat with _ | k
  · simp
  · rw [List.chain'_range_succ]
    intro m hm
    push_cast
    ring

theorem newtonSolve_sound (f fd : ℚ → ℚ) (tol : ℚ) :
    ∀ (fuel : ℕ) (r x : ℚ), newtonSolve f fd tol fuel r = some x → |f x| < tol := by
  intro fuel
  induction fuel with
  | zero =>
    intro r x h
    simp [newtonSolve] at h
  | succ n ih =>
    intro r x h
    rw [newtonSolve] at h
    split_ifs at h with htol hder
    all_goals first
    | exact ih _ _ h
    | (rw [Option.some.injEq] at h
       subst h
       exact htol)

theorem pageWindow_bounds (c T : ℤ) (h1 : 1 ≤ c) (h2 : c ≤ T) :
    1 ≤ pageStart c T ∧ pageStart c T ≤ c ∧ c ≤ pageEnd c T ∧ pageEnd c T ≤ T ∧
      pageEnd c T - pageStart c T + 1 = min 5 T := by
  have hmv : maxVisiblePages = 5 := rfl
  have ha1 : (1 : ℤ) ≤ pageStartInitial c := le_max_left _ _
  have ha2 : c - 2 ≤ pageStartInitial c := by
    unfold pageStartInitial
    rw [hmv, show (5 : ℤ) / 2 = 2 from rfl]
    exact le_max_right _ _
  have ha3 : pageStartInitial c = 1 ∨ pageStartInitial c = c - 2 := by
    unfold pageStartInitial
    rw [hmv, show (5 : ℤ) / 2 = 2 from rfl]
    exact max_choice _ _
  have he1 : pageEnd c T ≤ T := min_le_left _ _
  have he0 : pageEnd c T ≤ pageStartInitial c + 4 := by
    unfold pageEnd
    rw [hmv]
    have := min_le_right T (pageStartInitial c + 5 - 1)
    omega
  have he2 : pageEnd c T = T ∨ pageEnd c T = pageStartInitial c + 4 := by
    unfold pageEnd
    rw [hmv]
    rcases min_choice T (pageStartInitial c + 5 - 1) with h | h
    · exact Or.inl h
    · right
      omega
  have hm1 : min (5 : ℤ) T ≤ 5 := min_le_left _ _
  have hm2 : min (5 : ℤ) T ≤ T := min_le_right _ _
  have hm3 : min (5 : ℤ) T = 5 ∨ min (5 : ℤ) T = T := min_choice _ _
  unfold pageStart
  rw [hmv]
  split_ifs with hshort
  · have hb1 : (1 : ℤ) ≤ max 1 (pageEnd c T - 5 + 1) := le_max_left _ _
    have hb2 : pageEnd c T - 5 + 1 ≤ max 1 (pageEnd c T - 5 + 1) := le_max_right _ _
    have hb3 : max 1 (pageEnd c T - 5 + 1) = 1 ∨
        max 1 (pageEnd c T - 5 + 1) = pageEnd c T - 5 + 1 := max_choice _ _
    rcases ha3 with h | h <;> rcases he2 with h' | h' <;> rcases hb3 with h'' | h'' <;>
      rcases hm3 with h3 | h3 <;> omega
  · rcases ha3 with h | h <;> rcases he2 with h' | h' <;> rcases hm3 with h3 | h3 <;> omega

theorem toggleFund_preserves (prev : List ℤ) (i : ℤ) (hnd : prev.Nodup)
    (hlen : prev.length ≤ 10) :
    (toggleFund prev i).Nodup ∧ (toggleFund prev i).length ≤ 10 := by
  unfold toggleFund
  split_ifs with hmem hstep
  · exact ⟨hnd.filter _, le_trans (List.length_filter_le _ _) hlen⟩
  · refine ⟨?_, ?_⟩
    · rw [List.nodup_append]
      refine ⟨hnd, List.nodup_singleton i, ?_⟩
      intro a ha hb
      rw [List.mem_singleton] at hb
      subst hb
      exact hmem ha
    · simp only [List.length_append, List.length_cons, List.length_nil]
      omega
  · exact ⟨hnd, hlen⟩

theorem foldl_toggleFund (ids : List ℤ) :
    ∀ prev : List ℤ, prev.Nodup → prev.length ≤ 10 →
      (ids.foldl toggleFund prev).Nodup ∧ (ids.foldl toggleFund prev).length ≤ 10 := by
  induction ids with
  | nil =>
    intro prev hnd hlen
    exact ⟨hnd, hlen⟩
  | cons i rest ih =>
    intro prev hnd hlen
    rw [List.foldl_cons]
    obtain ⟨hnd2, hlen2⟩ := toggleFund_preserves prev i hnd hlen
    exact ih _ hnd2 hlen2

/- ----------------------------------------------------------------
   Claim theorems
   ---------------------------------------------------------------- -/

/-- C1: on the compare page formatMetric renders every null or undefined
metric as N/A, and the IRR, Paid-In Capital and Distributions cards on the
fund detail page render a null metric as N/A; but the DPI card on the fund
detail page renders a null dpi as the string undefinedx, not N/A, because
string concatenation with the letter x makes the undefined optional chain
truthy and the N/A fallback unreachable. This refutes the claim that every
null metric is rendered as N/A at the user-facing boundary. -/
theorem c1_null_metric_rendering :
    (∀ tf : ℚ → String, dpiCardValue tf none = "undefinedx" ∧ dpiCardValue tf none ≠ "N/A") ∧
    (∀ (fc tf : ℚ → String) (fmt : MetricFormat), formatMetric fc tf none fmt = "N/A") ∧
    (∀ fp : ℚ → String, irrCardValue fp none = "N/A") ∧
    (∀ fc : ℚ → String, picCardValue fc none = "N/A") ∧
    (∀ fc : ℚ → String, distributionsCardValue fc none = "N/A") := by
  refine ⟨fun tf => ⟨rfl, ?_⟩, fun fc tf fmt => rfl, fun fp => rfl, fun fc => rfl, fun fc => rfl⟩
  intro hcontra
  simp [dpiCardValue] at hcontra

/-- C2: a query response carrying a true no_documents_found flag yields an
assistant message whose flag is copied verbatim, for which MessageBubble shows
the warning banner, and whose displayed metrics and answer are exactly the
ones of the response, so the flag is surfaced and nothing is fabricated at
this boundary. -/
theorem c2_no_docs_flag_surfaced (r : QueryResponse) (h : r.no_documents_found = true) :
    showsNoDocsBanner (assistantMessageOfResponse r) = true ∧
    (assistantMessageOfResponse r).noDocumentsFound = some true ∧
    (assistantMessageOfResponse r).metrics = r.metrics ∧
    (assistantMessageOfResponse r).content = r.answer := by
  refine ⟨?_, ?_, rfl, rfl⟩
  · simp [showsNoDocsBanner, assistantMessageOfResponse, jsTruthyOptBool, h]
  · simp [assistantMessageOfResponse, h]

/-- C2 witness at a concrete response with the flag set. -/
theorem c2_no_docs_flag_surfaced_witness :
    showsNoDocsBanner (assistantMessageOfResponse ⟨"no documents", [], none, true⟩) = true :=
  (c2_no_docs_flag_surfaced ⟨"no documents", [], none, true⟩ rfl).1

/-- C3: when PIC is 0 the metrics snapshot has null dpi, tvpi and moic; rvpi
is 0 exactly when NAV is 0, and equals NAV over PIC whenever NAV and PIC are
both nonzero. -/
theorem c3_pic_zero_null_policy (txs : List Transaction) (navSrc : Option ℚ) :
    ((get_metrics txs navSrc).pic = 0 →
      (get_metrics txs navSrc).dpi = none ∧ (get_metrics txs navSrc).tvpi = none ∧
        (get_metrics txs navSrc).moic = none) ∧
    ((get_metrics txs navSrc).rvpi = some 0 ↔ (get_metrics txs navSrc).nav = 0) ∧
    ((get_metrics txs navSrc).nav ≠ 0 → (get_metrics txs navSrc).pic ≠ 0 →
      (get_metrics txs navSrc).rvpi =
        some ((get_metrics txs navSrc).nav / (get_metrics txs navSrc).pic)) := by
  simp only [get_metrics]
  refine ⟨?_, ?_, ?_⟩
  · intro h0
    simp [h0]
  · by_cases hn : navSrc.getD 0 = 0
    · simp [hn]
    · by_cases hp : paidInCapital txs = 0
      · simp [hn, hp]
      · rw [if_neg hn, if_neg hp]
        simp [div_eq_zero_iff, hn, hp]
  · intro hn hp
    simp [hn, hp]

/-- C3 witness at the empty transaction set with no NAV source. -/
theorem c3_pic_zero_null_policy_witness :
    (get_metrics [] none).dpi = none ∧
    ((get_metrics [] none).rvpi = some 0 ↔ (get_metrics [] none).nav = 0) := by
  obtain ⟨h1, h2, h3⟩ := c3_pic_zero_null_policy [] none
  refine ⟨?_, h2⟩
  exact (h1 (by simp [get_metrics, paidInCapital, capitalCallTotal, adjustmentTotal])).1

/-- C4: when PIC is nonzero, dpi, rvpi, tvpi and moic are all present, TVPI
equals DPI plus RVPI, MOIC equals TVPI, and both equal distributed capital
plus NAV over PIC. -/
theorem c4_tvpi_moic_identity (txs : List Transaction) (navSrc : Option ℚ)
    (hp : (get_metrics txs navSrc).pic ≠ 0) :
    ∃ d r t, (get_metrics txs navSrc).dpi = some d ∧
      (get_metrics txs navSrc).rvpi = some r ∧
      (get_metrics txs navSrc).tvpi = some t ∧
      (get_metrics txs navSrc).moic = some t ∧
      t = d + r ∧
      t = ((get_metrics txs navSrc).distributed_capital + (get_metrics txs navSrc).nav) /
            (get_metrics txs navSrc).pic := by
  simp only [get_metrics] at hp ⊢
  by_cases hn : navSrc.getD 0 = 0
  · refine ⟨distributedCapital txs / paidInCapital txs, 0,
      (distributedCapital txs + navSrc.getD 0) / paidInCapital txs,
      by simp [hp], by simp [hn], by simp [hp], by simp [hp], ?_, rfl⟩
    rw [hn, add_zero, add_zero]
  · refine ⟨distributedCapital txs / paidInCapital txs,
      navSrc.getD 0 / paidInCapital txs,
      (distributedCapital txs + navSrc.getD 0) / paidInCapital txs,
      by simp [hp], by simp [hn, hp], by simp [hp], by simp [hp], ?_, rfl⟩
    rw [add_div]

/-- C4 witness at one capital call of 100 and a NAV source of 50. -/
theorem c4_tvpi_moic_identity_witness :
    ∃ d r t, (get_metrics [Transaction.capitalCall 100] (some 50)).dpi = some d ∧
      (get_metrics [Transaction.capitalCall 100] (some 50)).rvpi = some r ∧
      (get_metrics [Transaction.capitalCall 100] (some 50)).tvpi = some t ∧
      (get_metrics [Transaction.capitalCall 100] (some 50)).moic = some t ∧
      t = d + r ∧
      t = ((get_metrics [Transaction.capitalCall 100] (some 50)).distributed_capital +
            (get_metrics [Transaction.capitalCall 100] (some 50)).nav) /
            (get_metrics [Transaction.capitalCall 100] (some 50)).pic :=
  c4_tvpi_moic_identity [Transaction.capitalCall 100] (some 50)
    (by norm_num [get_metrics, paidInCapital, capitalCallTotal, adjustmentTotal])

/-- C5: the IRR routine returns none whenever the cash-flow series is not
sign-mixed, and any rate it does return meets the NPV tolerance, so a run
that never meets the tolerance within the iteration cap yields none; the
routine is total by construction and never raises. -/
theorem c5_irr_guard_and_convergence (npv npvDeriv : List CashFlow → ℚ → ℚ)
    (flows : List CashFlow) :
    (hasMixedSigns flows = false → calculateIrr npv npvDeriv flows = none) ∧
    (∀ r : ℚ, calculateIrr npv npvDeriv flows = some r → |npv flows r| < 1 / 1000000) := by
  constructor
  · intro h
    simp [calculateIrr, h]
  · intro r hr
    unfold calculateIrr at hr
    split_ifs at hr with hm
    exact newtonSolve_sound _ _ _ _ _ _ hr

/-- C5 witness: a series with no negative flow yields none, and a returned
rate at a concrete sign-mixed series meets the tolerance. -/
theorem c5_irr_guard_and_convergence_witness :
    calculateIrr (fun _ _ => (0 : ℚ)) (fun _ _ => (1 : ℚ)) [⟨1, 0⟩] = none ∧
    |(fun _ : List CashFlow => fun _ : ℚ => (0 : ℚ)) [⟨-1, 0⟩, ⟨1, 365⟩] (1 / 10)| <
      1 / 1000000 := by
  constructor
  · exact (c5_irr_guard_and_convergence _ _ _).1 (by decide)
  · refine (c5_irr_guard_and_convergence (fun _ _ => (0 : ℚ)) (fun _ _ => (1 : ℚ))
      [⟨-1, 0⟩, ⟨1, 365⟩]).2 (1 / 10) ?_
    unfold calculateIrr
    rw [show hasMixedSigns [⟨-1, 0⟩, ⟨1, 365⟩] = true from by decide, if_pos rfl]
    rw [show (100 : ℕ) = 99 + 1 from rfl, newtonSolve]
    norm_num

/-- C6: the Velocity Ventures scenario with capital calls totaling one
hundred million, distributions totaling forty million and a NAV of one
hundred twenty million yields DPI 0.40, RVPI 1.20, TVPI 1.60 and MOIC 1.60. -/
theorem c6_velocity_scenario :
    (get_metrics velocityTransactions (some 120000000)).dpi = some (0.40 : ℚ) ∧
    (get_metrics velocityTransactions (some 120000000)).rvpi = some (1.20 : ℚ) ∧
    (get_metrics velocityTransactions (some 120000000)).tvpi = some (1.60 : ℚ) ∧
    (get_metrics velocityTransactions (some 120000000)).moic = some (1.60 : ℚ) := by
  norm_num [get_metrics, velocityTransactions, paidInCapital, capitalCallTotal,
    adjustmentTotal, distributedCapital]

/-- C7: a row whose cells fail to parse is skipped without affecting the rest
of the table, and the concrete scenario table with header Date, Amount,
Recallable and one unparseable-date row still classifies as distribution with
the one remaining valid row. -/
theorem c7_bad_row_skipped :
    (∀ (header : List String) (pre post : List (List String)) (badRow : List String),
      parseRow badRow = none →
        classifyTable ⟨header, pre ++ badRow :: post⟩ = classifyTable ⟨header, pre ++ post⟩) ∧
    classifyTable ⟨["Date", "Amount", "Recallable"],
        [["Jan 15, 2024", "$100", ""], ["01/15/2024", "$2,500,000", "Yes"]]⟩ =
      (TableLabel.distribution, [⟨⟨2024, 1, 15⟩, (2500000 : ℚ)⟩]) := by
  constructor
  · intro header pre post badRow hbad
    simp [classifyTable, List.filterMap_append, List.filterMap_cons, hbad]
  · decide

/-- C7 witness: skipping the concrete unparseable-date row leaves the
classification of the remaining table unchanged. -/
theorem c7_bad_row_skipped_witness :
    classifyTable ⟨["Date", "Amount", "Recallable"],
        [] ++ ["Jan 15, 2024", "$100", ""] :: [["01/15/2024", "$2,500,000", "Yes"]]⟩ =
      classifyTable ⟨["Date", "Amount", "Recallable"],
        [] ++ [["01/15/2024", "$2,500,000", "Yes"]]⟩ :=
  c7_bad_row_skipped.1 ["Date", "Amount", "Recallable"] []
    [["01/15/2024", "$2,500,000", "Yes"]] ["Jan 15, 2024", "$100", ""] (by decide)

/-- C8: for a current page between 1 and the total page count, getPageNumbers
returns consecutive integers, of length the minimum of 5 and the total page
count, all within range and containing the current page; and handlePageChange
invokes the callback exactly on pages between 1 and the total page count. -/
theorem c8_pagination_window (c T : ℤ) (h1 : 1 ≤ c) (h2 : c ≤ T) :
    ((getPageNumbers c T).length : ℤ) = min 5 T ∧
    List.Chain' (fun a b => b = a + 1) (getPageNumbers c T) ∧
    (∀ p ∈ getPageNumbers c T, 1 ≤ p ∧ p ≤ T) ∧
    c ∈ getPageNumbers c T ∧
    (∀ p : ℤ, handlePageChange T p = some p ↔ 1 ≤ p ∧ p ≤ T) := by
  obtain ⟨hs1, hsc, hce, heT, hlen⟩ := pageWindow_bounds c T h1 h2
  refine ⟨?_, intRange_chain _ _, ?_, ?_, ?_⟩
  · rw [show getPageNumbers c T = intRange (pageStart c T) (pageEnd c T) from rfl,
      intRange_length _ _ (by omega)]
    omega
  · intro p hp
    have := mem_intRange.mp hp
    omega
  · exact mem_intRange.mpr ⟨hsc, hce⟩
  · intro p
    unfold handlePageChange
    split_ifs with h
    · simp [h]
    · simp [h]

/-- C8 witness at current page 3 of 20 total pages. -/
theorem c8_pagination_window_witness :
    ((getPageNumbers 3 20).length : ℤ) = min 5 20 ∧ (3 : ℤ) ∈ getPageNumbers 3 20 := by
  obtain ⟨ha, _, _, hb, _⟩ := c8_pagination_window 3 20 (by decide) (by decide)
  exact ⟨ha, hb⟩

/-- C9: starting from the empty selection, any sequence of toggleFund calls
keeps the selected-fund list duplicate-free and at most 10 long; toggling a
selected id filters it out, toggling a new id at length 10 leaves the list
unchanged, and the comparison query is enabled exactly when at least 2 funds
are selected. -/
theorem c9_fund_selection :
    (∀ ids : List ℤ, (ids.foldl toggleFund []).Nodup ∧
      (ids.foldl toggleFund []).length ≤ 10) ∧
    (∀ (prev : List ℤ) (i : ℤ), i ∈ prev →
      toggleFund prev i = prev.filter (fun id => id ≠ i)) ∧
    (∀ (prev : List ℤ) (i : ℤ), i ∉ prev → prev.length = 10 → toggleFund prev i = prev) ∧
    (∀ sel : List ℤ, compareQueryEnabled sel = true ↔ 2 ≤ sel.length) := by
  refine ⟨?_, ?_, ?_, ?_⟩
  · intro ids
    exact foldl_toggleFund ids [] List.nodup_nil (by simp)
  · intro prev i hmem
    unfold toggleFund
    rw [if_pos hmem]
  · intro prev i hmem hlen
    unfold toggleFund
    rw [if_neg hmem, if_neg (by omega)]
  · intro sel
    unfold compareQueryEnabled
    exact decide_eq_true_iff

/-- C9 witness at concrete selections. -/
theorem c9_fund_selection_witness :
    ([1, 2, 1].foldl toggleFund []).Nodup ∧
    toggleFund [3] 3 = [] ∧
    toggleFund [1, 2, 3, 4, 5, 6, 7, 8, 9, 10] 11 = [1, 2, 3, 4, 5, 6, 7, 8, 9, 10] ∧
    compareQueryEnabled [5, 7] = true := by
  obtain ⟨h1, h2, h3, h4⟩ := c9_fund_selection
  refine ⟨(h1 [1, 2, 1]).1, ?_, ?_, (h4 [5, 7]).mpr (by decide)⟩
  · rw [h2 [3] 3 (by decide)]
    decide
  · exact h3 [1, 2, 3, 4, 5, 6, 7, 8, 9, 10] 11 (by decide) (by decide)

/-- C10: the chat metrics panel drops null and undefined entries entirely, a
numeric entry whose key contains the letters irr renders as two decimals
followed by a percent sign, any other numeric entry renders through
formatCurrency, and every rendered row originates from a non-null entry of
the metrics object. -/
theorem c10_metrics_panel (fc tf : ℚ → String) :
    (∀ (k : String) (ms : List (String × JsVal)),
      renderMetricsPanel fc tf ((k, JsVal.jsNull) :: ms) = renderMetricsPanel fc tf ms ∧
      renderMetricsPanel fc tf ((k, JsVal.jsUndef) :: ms) = renderMetricsPanel fc tf ms) ∧
    (∀ (k : String) (q : ℚ) (ms : List (String × JsVal)), stringIncludes k "irr" = true →
      renderMetricsPanel fc tf ((k, JsVal.jsNum q) :: ms) =
        (k, tf q ++ "%") :: renderMetricsPanel fc tf ms) ∧
    (∀ (k : String) (q : ℚ) (ms : List (String × JsVal)), stringIncludes k "irr" = false →
      renderMetricsPanel fc tf ((k, JsVal.jsNum q) :: ms) =
        (k, fc q) :: renderMetricsPanel fc tf ms) ∧
    (∀ (ms : List (String × JsVal)) (row : String × String),
      row ∈ renderMetricsPanel fc tf ms →
        ∃ e ∈ ms, e.1 = row.1 ∧ e.2 ≠ JsVal.jsNull ∧ e.2 ≠ JsVal.jsUndef) := by
  refine ⟨?_, ?_, ?_, ?_⟩
  · intro k ms
    constructor <;> simp [renderMetricsPanel, renderMetricRow, List.filterMap_cons]
  · intro k q ms hirr
    simp [renderMetricsPanel, renderMetricRow, List.filterMap_cons, hirr]
  · intro k q ms hirr
    simp [renderMetricsPanel, renderMetricRow, List.filterMap_cons, hirr]
  · intro ms row hrow
    rw [renderMetricsPanel, List.mem_filterMap] at hrow
    obtain ⟨e, he, hfe⟩ := hrow
    rcases h2 : e.2 with _ | _ | q | s <;> rw [h2] at hfe
    · exact absurd hfe (by simp [renderMetricRow])
    · exact absurd hfe (by simp [renderMetricRow])
    · rw [renderMetricRow, Option.some.injEq] at hfe
      exact ⟨e, he, by rw [← hfe], by simp [h2], by simp [h2]⟩
    · rw [renderMetricRow, Option.some.injEq] at hfe
      exact ⟨e, he, by rw [← hfe], by simp [h2], by simp [h2]⟩

/-- C10 witness at a concrete metrics object with an irr entry and a null
entry. -/
theorem c10_metrics_panel_witness :
    renderMetricsPanel (fun _ => "FC") (fun _ => "0.15")
        [("irr", JsVal.jsNum 0), ("dpi", JsVal.jsNull)] =
      [("irr", "0.15" ++ "%")] := by
  have h := c10_metrics_panel (fun _ => "FC") (fun _ => "0.15")
  rw [h.2.1 "irr" 0 [("dpi", JsVal.jsNull)] (by decide), (h.1 "dpi" []).1]
  rfl

end FundApp
